import Mathlib

set_option maxRecDepth 10000

/-
  Verification of the Honest Retirement Planner core against its specification.

  The development shallowly embeds the arithmetic core of the repository over an
  arbitrary linear ordered field `K` (instantiated at `ℚ` for concrete
  evaluations).  Python floats are modelled as exact field elements; `math.inf`
  bracket bounds are modelled with `Option` (`none` = infinity).  The monthly
  factors that the source obtains by 12th roots, `(1 - fees_annual) ** (1/12)`
  and `(1 + cpi) ** (1/12)`, have no closed form in an ordered field and are
  carried as explicit fields of the configuration next to their annual inputs;
  theorems that need their sign assume it (it holds whenever the Python
  expression is defined, i.e. for `fees_annual ≤ 1`, `cpi ≥ -1`).
  Random return draws (numpy `multivariate_normal`) are modelled as an
  arbitrary input sequence, so theorems quantify over every simulated path.
-/

namespace TaxUK

variable {K : Type} [LinearOrderedField K]

/-- Mirror of `tax_uk.TaxBands`. -/
structure TaxBands (K : Type) where
  pa : K
  brt : K
  hrt : K
  taper_start : K
  deriving Repr, DecidableEq

/-- Mirror of `tax_uk.bands_with_inflation_factor` with the 2024/25 UK base
constants `12_570`, `50_270`, `125_140`, `100_000`. -/
def bands_with_inflation_factor (factor : K) : TaxBands K :=
  { pa := 12570 * factor
    brt := 50270 * factor
    hrt := 125140 * factor
    taper_start := 100000 * factor }

/-- Mirror of `tax_uk.tax_due`. -/
def tax_due (gross : K) (bands : TaxBands K) : K :=
  if gross ≤ 0 then 0
  else
    let pa :=
      if bands.taper_start < gross then
        max 0 (bands.pa - max 0 ((gross - bands.taper_start) / 2))
      else bands.pa
    let taxable := max 0 (gross - pa)
    let basic_band := max 0 (min taxable (bands.brt - pa))
    let higher_band := max 0 (min (max 0 (taxable - basic_band)) (bands.hrt - bands.brt))
    let additional_band := max 0 (taxable - basic_band - higher_band)
    basic_band * (20 / 100) + higher_band * (40 / 100) + additional_band * (45 / 100)

/-- Mirror of `tax_uk.net_from_gross`. -/
def net_from_gross (gross : K) (bands : TaxBands K) : K :=
  gross - tax_due gross bands

/-- The 60-step bisection loop of `tax_uk.gross_needed_for_net`, with the
`(lo, hi)` pair as explicit state. -/
def bisect_net (bands : TaxBands K) (net_target : K) : ℕ → K × K → K × K
  | 0, p => p
  | n + 1, (lo, hi) =>
      let mid := (lo + hi) / 2
      if net_from_gross mid bands < net_target then bisect_net bands net_target n (mid, hi)
      else bisect_net bands net_target n (lo, mid)

/-- Mirror of `tax_uk.gross_needed_for_net`: 60 bisection iterations on
`[0, 2_000_000]`, returning the upper end. -/
def gross_needed_for_net (net_target : K) (bands : TaxBands K) : K :=
  if net_target ≤ 0 then 0
  else (bisect_net bands net_target 60 (0, 2000000)).2

end TaxUK

namespace TaxModels

variable {K : Type} [LinearOrderedField K]

/-- Mirror of `tax_models.Bracket`; `upper = none` models `math.inf`. -/
structure Bracket (K : Type) where
  upper : Option K
  rate : K
  deriving Repr, DecidableEq

/-- Mirror of `tax_models.TaxSpec` (the dataclass defaults are supplied at the
use sites).  `taperFrac` is the source's `taper_ratio` field. -/
structure TaxSpec (K : Type) where
  name : String := ""
  allowance : K
  brackets : List (Bracket K)
  taper_start : Option K
  taperFrac : K
  medicare_levy : K
  deriving Repr, DecidableEq

/-- Mirror of `tax_models._apply_taper`. -/
def apply_taper (gross allowance : K) (spec : TaxSpec K) : K :=
  match spec.taper_start with
  | none => allowance
  | some ts =>
      if gross ≤ ts then allowance
      else max 0 (allowance - max 0 ((gross - ts) * spec.taperFrac))

/-- The bracket loop of `tax_models.tax_due` with its `last_upper`/`tax`
accumulators; an infinite bracket (`upper = none`) contributes the width
`taxable + last_upper - last_upper = taxable`, exactly as the source's
`up = taxable + last_upper` does, and the loop breaks once
`last_upper >= taxable - 1e-9`. -/
def bracket_walk (taxable : K) : List (Bracket K) → K → K → K
  | [], _, tax => tax
  | b :: bs, last_upper, tax =>
      let up :=
        match b.upper with
        | some u => u
        | none => taxable + last_upper
      let width := max 0 (min taxable (up - last_upper))
      let tax2 := tax + width * b.rate
      let last2 := last_upper + width
      if taxable - 1 / 1000000000 ≤ last2 then tax2
      else bracket_walk taxable bs last2 tax2

/-- Mirror of `tax_models.tax_due`. -/
def tax_due (gross : K) (spec : TaxSpec K) : K :=
  if gross ≤ 0 then 0
  else
    let eff_allow := apply_taper gross spec.allowance spec
    let taxable := max 0 (gross - eff_allow)
    let tax := bracket_walk taxable spec.brackets 0 0
    if 0 < spec.medicare_levy then tax + taxable * spec.medicare_levy else tax

/-- Mirror of `tax_models.net_from_gross`. -/
def net_from_gross (gross : K) (spec : TaxSpec K) : K :=
  gross - tax_due gross spec

/-- The 70-step bisection loop of `tax_models.gross_needed_for_net`. -/
def bisect_net (spec : TaxSpec K) (net_target : K) : ℕ → K × K → K × K
  | 0, p => p
  | n + 1, (lo, hi) =>
      let mid := (lo + hi) / 2
      if net_from_gross mid spec < net_target then bisect_net spec net_target n (mid, hi)
      else bisect_net spec net_target n (lo, mid)

/-- Mirror of `tax_models.gross_needed_for_net`: 70 bisection iterations on
`[0, 2_000_000_000]`, returning the upper end. -/
def gross_needed_for_net (net_target : K) (spec : TaxSpec K) : K :=
  if net_target ≤ 0 then 0
  else (bisect_net spec net_target 70 (0, 2000000000)).2

/-- Boolean strict comparison of bracket upper bounds (`none` = infinity). -/
def upperLt (b1 b2 : Bracket K) : Bool :=
  match b1.upper, b2.upper with
  | some u, some v => decide (u < v)
  | some _, none => true
  | none, _ => false

/-- Consecutive bracket upper bounds are strictly increasing. -/
def bracketsSorted : List (Bracket K) → Bool
  | [] => true
  | [_] => true
  | b1 :: b2 :: bs => upperLt b1 b2 && bracketsSorted (b2 :: bs)

/-- The validity notion named by the claims: strictly increasing bracket upper
bounds and marginal rates in `[0, 1]`. -/
abbrev ValidBrackets (spec : TaxSpec K) : Prop :=
  bracketsSorted spec.brackets = true ∧ ∀ b ∈ spec.brackets, 0 ≤ b.rate ∧ b.rate ≤ 1

/-- A spec with a single unbounded bracket, no taper and a levy: the family on
which the claimed tax-function properties actually hold. -/
def singleBracketSpec (a r levy : K) : TaxSpec K :=
  { allowance := a
    brackets := [{ upper := none, rate := r }]
    taper_start := none
    taperFrac := 1 / 2
    medicare_levy := levy }

end TaxModels

namespace Taxes

variable {K : Type} [LinearOrderedField K]

/-- Mirror of `taxes.Band`. -/
structure Band (K : Type) where
  up_to : K
  rate : K
  deriving Repr, DecidableEq

/-- Mirror of `taxes.TaxSystem` (the `notes` field is dropped as pure
documentation). -/
structure TaxSystem (K : Type) where
  name : String := ""
  allowance : K
  taper_start : Option K
  bands : List (Band K)
  top_rate : K
  deriving Repr, DecidableEq

/-- The band loop of `taxes.tax_due`: on `taxable > band.up_to - last` it
consumes the full `(band.up_to - last)` width, otherwise it adds
`taxable * rate` and returns; if the loop exhausts the bands it adds
`(taxable - last) * top_rate`. -/
def band_walk (taxable top_rate : K) : List (Band K) → K → K → K
  | [], last, tax => tax + (taxable - last) * top_rate
  | b :: bs, last, tax =>
      if b.up_to - last < taxable then
        band_walk taxable top_rate bs b.up_to (tax + (b.up_to - last) * b.rate)
      else tax + taxable * b.rate

/-- Mirror of `taxes.tax_due`. -/
def tax_due (gross : K) (sys : TaxSystem K) : K :=
  if gross ≤ 0 then 0
  else
    let allowance :=
      match sys.taper_start with
      | some ts => if ts < gross then max 0 (sys.allowance - (gross - ts) / 2) else sys.allowance
      | none => sys.allowance
    let taxable := max 0 (gross - allowance)
    band_walk taxable sys.top_rate sys.bands 0 0

/-- Mirror of `taxes.net_from_gross`. -/
def net_from_gross (gross : K) (sys : TaxSystem K) : K :=
  gross - tax_due gross sys

/-- The 60-step bisection loop of `taxes.gross_for_net`. -/
def bisect_net (sys : TaxSystem K) (net_target : K) : ℕ → K × K → K × K
  | 0, p => p
  | n + 1, (lo, hi) =>
      let mid := (lo + hi) / 2
      if net_from_gross mid sys < net_target then bisect_net sys net_target n (mid, hi)
      else bisect_net sys net_target n (lo, mid)

/-- Mirror of `taxes.gross_for_net`: 60 bisection iterations on
`[0, 2_000_000]`, returning the upper end. -/
def gross_for_net (net_target : K) (sys : TaxSystem K) : K :=
  if net_target ≤ 0 then 0
  else (bisect_net sys net_target 60 (0, 2000000)).2

/-- Consecutive band thresholds are strictly increasing (`taxes.TaxSystem`
documents that `bands` must be sorted by `up_to`). -/
def bandsSorted : List (Band K) → Bool
  | [] => true
  | [_] => true
  | b1 :: b2 :: bs => decide (b1.up_to < b2.up_to) && bandsSorted (b2 :: bs)

end Taxes

namespace Costs

variable {α K : Type} [LinearOrderedField K]

/-- One output row of `costs.project_category_costs` (one category at one year
offset), carrying the monthly and annual, nominal and real figures. -/
structure CostRow (α K : Type) where
  year : ℕ
  category : α
  monthly_nominal : K
  monthly_real : K
  annual_nominal : K
  annual_real : K
  deriving Repr, DecidableEq

/-- Mirror of `costs.project_category_costs`: the spending basket is the list of
`(category, monthly amount)` pairs of the input dict, `drifts` is the drift
dict as a partial map (`drifts.get(cat, 0.0)` becomes `(drifts cat).getD 0`),
and the output is the list of rows for every category and every year offset
`0..years`; the annual columns are the monthly columns times 12. -/
def project_category_costs (spend_today : List (α × K)) (cpi : K)
    (drifts : α → Option K) (years : ℕ) : List (CostRow α K) :=
  (spend_today.map fun p =>
    (List.range (years + 1)).map fun y =>
      let drift := (drifts p.1).getD 0
      let monthly_nominal := p.2 * (1 + (cpi + drift)) ^ y
      let monthly_real := monthly_nominal / (1 + cpi) ^ y
      { year := y
        category := p.1
        monthly_nominal := monthly_nominal
        monthly_real := monthly_real
        annual_nominal := monthly_nominal * 12
        annual_real := monthly_real * 12 }).flatten

end Costs

namespace Drawdown

variable {K : Type} [LinearOrderedField K]

/-- Mirror of `drawdown.guardrails` (Guyton-Klinger simplified).  The Python
`last_spend_gross or 0.0` is the identity on numbers, so it is dropped; the
`current_spend_gross` and `portfolio_start` parameters are unused in the
source body and kept here for interface fidelity. -/
def guardrails (current_spend_gross port_now start_pct band maxRaise maxCut
    last_spend_gross port_start : K) : K :=
  let wr := last_spend_gross / max port_now (1 / 1000000000)
  if start_pct * (1 + band) < wr then max 0 (last_spend_gross * (1 - maxCut))
  else if wr < start_pct * (1 - band) then last_spend_gross * (1 + maxRaise)
  else last_spend_gross

end Drawdown

namespace Simulation

variable {K : Type} [LinearOrderedField K]

/-- The `guardrails` sub-dictionary of the configuration
(`cfg.guardrails_cfg["initial_pct"]` and friends). -/
structure GuardrailsCfg (K : Type) where
  initial_pct : K
  raise_cut : K
  max_raise : K
  max_cut : K
  deriving Repr, DecidableEq

/-- Mirror of `simulation.SimConfig`.  Ages are Python ints.  The derived
monthly factors `contribution_growth_m = (1 + contribution_growth_pct/100) ** (1/12)`,
`fees_m = (1 - fees_annual) ** (1/12)` and `cpi_m = (1 + cpi) ** (1/12)` are
computed once at the top of `run_paths` by 12th roots, which have no closed
form in an ordered field; they are carried here as explicit fields next to
their annual inputs.  `rule_is_3pct` models the source's substring test
`"3%" in cfg.headline_rule`. -/
@[ext]
structure SimCfg (K : Type) where
  start_age : ℤ
  retire_age : ℤ
  end_age : ℤ
  monthly_contribution : K
  contribution_growth_pct : K
  contribution_growth_m : K
  current_investable : K
  equity_alloc : K
  bond_alloc : K
  equity_real_return : K
  equity_vol : K
  bond_real_return : K
  bond_vol : K
  corr_equity_bond : K
  fees_annual : K
  fees_m : K
  cpi : K
  cpi_m : K
  category_basket_annual_today : K
  preserve_capital : Bool
  rule_is_3pct : Bool
  guardrails_cfg : GuardrailsCfg K
  num_paths : ℕ
  seed : ℕ
  uk_tax : Bool
  deriving Repr, DecidableEq

/-- `months = (end_age - start_age) * 12`, the horizon of `run_paths`. -/
def months (cfg : SimCfg K) : ℕ := ((cfg.end_age - cfg.start_age) * 12).toNat

/-- `rule_pct = 0.03 if "3%" in cfg.headline_rule else 0.04`. -/
def rule_pct (cfg : SimCfg K) : K := if cfg.rule_is_3pct then 3 / 100 else 4 / 100

/-- The per-month state of the `run_paths` loop: the current portfolio value
`real_port[m]`, its value after the market/fee step but before the month's
withdrawal, the nominal contribution accumulator, the `retired` flag, the
cumulative tax-band inflation factor, the month's recorded gross and net
withdrawals, the list of all recorded gross withdrawals (most recent month
first, used by the guardrails lookback), and `first_withdrawal_month`. -/
structure PathState (K : Type) where
  port : K
  portPre : K
  contrib : K
  retired : Bool
  tax_factor : K
  gross : K
  net : K
  grossHist : List K
  firstWd : Option ℕ
  deriving Repr, DecidableEq

/-- State before the loop: `real_port[0] = current_investable`, contribution
accumulator at its initial value, not retired, tax factor 1, the zero
withdrawal recorded at index 0, no first withdrawal. -/
def pathInit (cfg : SimCfg K) : PathState K :=
  { port := cfg.current_investable
    portPre := cfg.current_investable
    contrib := cfg.monthly_contribution
    retired := false
    tax_factor := 1
    gross := 0
    net := 0
    grossHist := [0]
    firstWd := none }

/-- One iteration of the `run_paths` month loop (month `m ≥ 1`), with the drawn
monthly real returns supplied as sequences `eqR`, `bdR` (the source draws them
from a seeded multivariate normal).  Steps, in source order: optional
contribution (grows the nominal accumulator, deflates by `cpi_m ** m`, adds to
the previous month's portfolio), market return floored at 0 then monthly fee
multiplier, retirement flag update, annual tax-band indexing, and in
retirement the withdrawal: preserve-capital cap or guardrails adjustment of
the desired budget, net→gross conversion through the inflation-indexed UK
bands, cap at available wealth, floor the portfolio at 0. -/
def pathStep (cfg : SimCfg K) (eqR bdR : ℕ → K) (s : PathState K) (m : ℕ) :
    PathState K :=
  let doContrib := !s.retired &&
    decide ((cfg.start_age : K) + ((m : K) - 1) / 12 < (cfg.retire_age : K))
  let contrib2 := if doContrib then s.contrib * cfg.contribution_growth_m else s.contrib
  let portPrev := if doContrib then s.port + contrib2 / cfg.cpi_m ^ m else s.port
  let port_r := cfg.equity_alloc * eqR (m - 1) + cfg.bond_alloc * bdR (m - 1)
  let portPre := max 0 (portPrev * (1 + port_r)) * cfg.fees_m
  let retired2 := s.retired ||
    decide ((cfg.retire_age : K) ≤ (cfg.start_age : K) + (m : K) / 12)
  let tax_factor2 := if m % 12 = 0 then s.tax_factor * (1 + cfg.cpi) else s.tax_factor
  if retired2 then
    let target_monthly := cfg.category_basket_annual_today / 12
    let rule_monthly := cfg.current_investable * rule_pct cfg / 12
    let desired := min target_monthly rule_monthly
    let grossTry :=
      if cfg.preserve_capital then
        min desired (max 0 (portPre - cfg.current_investable))
      else if m % 12 = 1 then
        let lastGrossAnnual := ((s.grossHist.take 12).foldr (· + ·) 0) * (12 / 12)
        Drawdown.guardrails (desired * 12) portPre cfg.guardrails_cfg.initial_pct
          cfg.guardrails_cfg.raise_cut cfg.guardrails_cfg.max_raise
          cfg.guardrails_cfg.max_cut
          (if 0 < lastGrossAnnual then lastGrossAnnual else desired * 12)
          cfg.current_investable / 12
      else desired
    let bands := TaxUK.bands_with_inflation_factor tax_factor2
    let annual_net := grossTry * 12
    let gross_annual := TaxUK.gross_needed_for_net annual_net bands
    let monthly_gross := min (gross_annual / 12) portPre
    let monthly_net := min (annual_net / 12) monthly_gross
    { port := max 0 (portPre - monthly_gross)
      portPre := portPre
      contrib := contrib2
      retired := retired2
      tax_factor := tax_factor2
      gross := monthly_gross
      net := monthly_net
      grossHist := monthly_gross :: s.grossHist
      firstWd := if s.firstWd = none ∧ (1 : K) / 1000000000 < monthly_gross
                 then some m else s.firstWd }
  else
    { port := portPre
      portPre := portPre
      contrib := contrib2
      retired := retired2
      tax_factor := tax_factor2
      gross := 0
      net := 0
      grossHist := 0 :: s.grossHist
      firstWd := s.firstWd }

/-- The state of the `run_paths` loop after processing months `1..m`. -/
def pathState (cfg : SimCfg K) (eqR bdR : ℕ → K) : ℕ → PathState K
  | 0 => pathInit cfg
  | m + 1 => pathStep cfg eqR bdR (pathState cfg eqR bdR m) (m + 1)

/-- The `real_portfolio` column of the `run_paths` results table: the array is
zero-initialised and only index 0 is ever assigned (`results["real_portfolio"][0]
= real_port[0]`); the month loop stores withdrawals and the retired flag but
never stores `real_port[m]` back into the table. -/
def recordedPort (cfg : SimCfg K) (m : ℕ) : K :=
  if m = 0 then cfg.current_investable else 0

/-- The `meta["success"]` flag of `run_paths`:
`first_withdrawal_month is not None and df["real_portfolio"].iloc[-1] > 0`. -/
abbrev RunSuccess (cfg : SimCfg K) (eqR bdR : ℕ → K) : Prop :=
  (pathState cfg eqR bdR (months cfg)).firstWd ≠ none ∧
    0 < recordedPort cfg (months cfg)

end Simulation

namespace Simulation

variable {K : Type} [LinearOrderedField K]

/-- `np.percentile(column, q)` with the default linear-interpolation method:
sort the `n` values, take `h = (n-1) * q/100`, and interpolate between the
values at positions `⌊h⌋` and `⌈h⌉`. -/
def percentile [FloorRing K] (q : K) (xs : List K) : K :=
  let ys := xs.insertionSort (· ≤ ·)
  let h := ((xs.length : K) - 1) * q / 100
  let ylo := ys.getD (⌊h⌋.toNat) 0
  let yhi := ys.getD (⌈h⌉.toNat) 0
  ylo + (h - (⌊h⌋.toNat : K)) * (yhi - ylo)

/-- The summary dict returned by `run_monte_carlo`: ages, success rate in
percent, and the per-month 5th/50th/95th percentiles of the recorded wealth
and net-withdrawal trajectories. -/
structure Summary (K : Type) where
  ages : List K
  success_rate : K
  wealth_p5 : List K
  wealth_p50 : List K
  wealth_p95 : List K
  wd_p5 : List K
  wd_p50 : List K
  wd_p95 : List K

/-- Mirror of `simulation.run_monte_carlo`.  The master generator
`np.random.default_rng(cfg.seed)` is created from the incoming seed before the
loop and its successive per-path draws are modelled by `jitter cfg.seed i`;
`drawRet sd m` models the pair of monthly returns that `run_paths` draws for
month `m+1` under seed `sd`.  The Python loop writes `path_cfg = cfg` (an
alias, not a copy) and then mutates `path_cfg.seed`, so the function returns
the summary together with the configuration object as it is left after the
run: its `seed` field holds the last per-path sub-seed whenever at least one
path was simulated. -/
def runMonteCarlo [FloorRing K] (jitter : ℕ → ℕ → ℕ) (drawRet : ℕ → ℕ → K × K)
    (cfg : SimCfg K) : Summary K × SimCfg K :=
  let idx := List.range (months cfg + 1)
  let pathCfg (i : ℕ) : SimCfg K := { cfg with seed := jitter cfg.seed i }
  let pathNet (i : ℕ) : List K :=
    idx.map fun m =>
      (pathState (pathCfg i) (fun j => (drawRet (jitter cfg.seed i) j).1)
        (fun j => (drawRet (jitter cfg.seed i) j).2) m).net
  let wealthRow : List K := idx.map (recordedPort cfg)
  let wdStack := (List.range cfg.num_paths).map pathNet
  let wealthStack := (List.range cfg.num_paths).map fun _ => wealthRow
  let col (stack : List (List K)) (m : ℕ) : List K := stack.map fun row => row.getD m 0
  let pct (stack : List (List K)) (q : K) : List K := idx.map fun m => percentile q (col stack m)
  let nSucc := (List.range cfg.num_paths).countP fun i =>
    decide (RunSuccess (pathCfg i) (fun j => (drawRet (jitter cfg.seed i) j).1)
      (fun j => (drawRet (jitter cfg.seed i) j).2))
  ({ ages := idx.map fun m => (cfg.start_age : K) + (m : K) / 12
     success_rate := 100 * ((nSucc : K) / (cfg.num_paths : K))
     wealth_p5 := pct wealthStack 5
     wealth_p50 := pct wealthStack 50
     wealth_p95 := pct wealthStack 95
     wd_p5 := pct wdStack 5
     wd_p50 := pct wdStack 50
     wd_p95 := pct wdStack 95 },
   if cfg.num_paths = 0 then cfg else { cfg with seed := jitter cfg.seed (cfg.num_paths - 1) })

end Simulation

/-
  Concrete fixtures used by the counterexamples and witnesses below.
-/

/-- A valid spec (single unbounded bracket, rate 0.8 ∈ [0,1], allowance 10000
tapered from 10000 at the default ratio 0.5) on which `net_from_gross` is not
monotone: the taper makes taxable income grow 1.5 times as fast as gross, so
the marginal tax rate in the taper region is 1.2. -/
def taperTrapSpec : TaxModels.TaxSpec ℚ :=
  { allowance := 10000
    brackets := [{ upper := none, rate := 4 / 5 }]
    taper_start := some 10000
    taperFrac := 1 / 2
    medicare_levy := 0 }

/-- A UK-like spec with a single 20% bracket above a 12570 allowance. -/
def simpleUKSpec : TaxModels.TaxSpec ℚ :=
  { allowance := 12570
    brackets := [{ upper := none, rate := 1 / 5 }]
    taper_start := none
    taperFrac := 1 / 2
    medicare_levy := 0 }

/-- A valid spec whose `net_from_gross` is decreasing on part of `[0, 2e9]`
(taper ratio 0.5, rate 0.8), so a net target above `net_from_gross(2e9)` is
still attainable at an interior gross. -/
def saturTrapSpec : TaxModels.TaxSpec ℚ :=
  { allowance := 1000000000
    brackets := [{ upper := none, rate := 4 / 5 }]
    taper_start := some 1000000000
    taperFrac := 1 / 2
    medicare_levy := 0 }

/-- A sorted `TaxSystem` with non-negative rates on which `taxes.tax_due`
returns a negative amount: with taxable income 95, the loop walks past both
zero-rate bands leaving `last = 100`, and the top-rate remainder
`(95 - 100) * 0.45` is negative. -/
def negBandSys : Taxes.TaxSystem ℚ :=
  { allowance := 0
    taper_start := none
    bands := [{ up_to := 10, rate := 0 }, { up_to := 100, rate := 0 }]
    top_rate := 9 / 20 }

/-- Preserve-capital configuration: retirement from the start, a 10m initial
portfolio, no fees and no inflation (monthly factors exactly 1), a large
spending basket. -/
def cfgPC : Simulation.SimCfg ℚ :=
  { start_age := 60, retire_age := 60, end_age := 61
    monthly_contribution := 0, contribution_growth_pct := 0, contribution_growth_m := 1
    current_investable := 10000000
    equity_alloc := 1, bond_alloc := 0
    equity_real_return := 0, equity_vol := 0, bond_real_return := 0, bond_vol := 0
    corr_equity_bond := 0
    fees_annual := 0, fees_m := 1
    cpi := 0, cpi_m := 1
    category_basket_annual_today := 600000
    preserve_capital := true
    rule_is_3pct := true
    guardrails_cfg := { initial_pct := 4 / 100, raise_cut := 1 / 10, max_raise := 1 / 10, max_cut := 1 / 10 }
    num_paths := 1, seed := 0, uk_tax := true }

/-- Return sequence for `cfgPC`: a constant 0.02% monthly real return, leaving
the month-1 portfolio 2000 above the initial principal. -/
def retPC : ℕ → ℚ := fun _ => 2 / 10000

/-- One-year horizon configuration retiring after month 12, 100k initial
portfolio, zero contributions, fees and inflation; the basket asks 1000 a
month and the 3% rule allows 250. -/
def cfgYr : Simulation.SimCfg ℚ :=
  { start_age := 60, retire_age := 61, end_age := 61
    monthly_contribution := 0, contribution_growth_pct := 0, contribution_growth_m := 1
    current_investable := 100000
    equity_alloc := 1, bond_alloc := 0
    equity_real_return := 0, equity_vol := 0, bond_real_return := 0, bond_vol := 0
    corr_equity_bond := 0
    fees_annual := 0, fees_m := 1
    cpi := 0, cpi_m := 1
    category_basket_annual_today := 12000
    preserve_capital := false
    rule_is_3pct := true
    guardrails_cfg := { initial_pct := 4 / 100, raise_cut := 1 / 10, max_raise := 1 / 10, max_cut := 1 / 10 }
    num_paths := 1, seed := 0, uk_tax := true }

/-- Zero returns every month. -/
def retZero : ℕ → ℚ := fun _ => 0

/-- A three-path copy of `cfgYr` with seed 42, for the Monte Carlo claims. -/
def cfgMC : Simulation.SimCfg ℚ :=
  { cfgYr with num_paths := 3, seed := 42 }

/-- A second, field-by-field identical copy of `cfgMC`. -/
def cfgMC2 : Simulation.SimCfg ℚ :=
  { start_age := 60, retire_age := 61, end_age := 61
    monthly_contribution := 0, contribution_growth_pct := 0, contribution_growth_m := 1
    current_investable := 100000
    equity_alloc := 1, bond_alloc := 0
    equity_real_return := 0, equity_vol := 0, bond_real_return := 0, bond_vol := 0
    corr_equity_bond := 0
    fees_annual := 0, fees_m := 1
    cpi := 0, cpi_m := 1
    category_basket_annual_today := 12000
    preserve_capital := false
    rule_is_3pct := true
    guardrails_cfg := { initial_pct := 4 / 100, raise_cut := 1 / 10, max_raise := 1 / 10, max_cut := 1 / 10 }
    num_paths := 3, seed := 42, uk_tax := true }

/-- A deterministic stand-in for the master generator's per-path sub-seed
draws: seed `s`, draw index `i` gives `s + i + 1`. -/
def jitterW : ℕ → ℕ → ℕ := fun s i => s + i + 1

/-- A stand-in for the per-seed monthly return draws: all zero. -/
def drawW : ℕ → ℕ → ℚ × ℚ := fun _ _ => (0, 0)

/-
  Helper lemmas.
-/

namespace TaxModels

variable {K : Type} [LinearOrderedField K]

theorem bracket_walk_nonneg (taxable : K) :
    ∀ (bs : List (Bracket K)) (last tax : K), (∀ b ∈ bs, 0 ≤ b.rate) → 0 ≤ tax →
      0 ≤ bracket_walk taxable bs last tax := by
  intro bs
  induction bs with
  | nil => intro last tax _ htax; simpa [bracket_walk] using htax
  | cons b bs ih =>
      intro last tax hr htax
      have hb : 0 ≤ b.rate := hr b (by simp)
      have hbs : ∀ x ∈ bs, 0 ≤ x.rate := fun x hx => hr x (by simp [hx])
      have hw : (0 : K) ≤ max 0 (min taxable
          ((match b.upper with | some u => u | none => taxable + last) - last)) :=
        le_max_left _ _
      have htax2 : 0 ≤ tax + max 0 (min taxable
          ((match b.upper with | some u => u | none => taxable + last) - last)) * b.rate :=
        add_nonneg htax (mul_nonneg hw hb)
      simp only [bracket_walk]
      split
      · exact htax2
      · exact ih _ _ hbs htax2

theorem tax_due_nonneg (gross : K) (spec : TaxSpec K)
    (hr : ∀ b ∈ spec.brackets, 0 ≤ b.rate) : 0 ≤ tax_due gross spec := by
  unfold tax_due
  split
  · exact le_rfl
  · have hwalk : 0 ≤ bracket_walk (max 0 (gross - apply_taper gross spec.allowance spec))
        spec.brackets 0 0 := bracket_walk_nonneg _ _ _ _ hr le_rfl
    dsimp only
    split
    · refine add_nonneg hwalk (mul_nonneg (le_max_left _ _) (le_of_lt (by assumption)))
    · exact hwalk

theorem net_from_gross_le (gross : K) (spec : TaxSpec K)
    (hr : ∀ b ∈ spec.brackets, 0 ≤ b.rate) : net_from_gross gross spec ≤ gross := by
  have := tax_due_nonneg gross spec hr
  unfold net_from_gross
  linarith

theorem max_zero_idem (x : K) : max 0 (max 0 x) = max 0 x := by
  rw [← max_assoc, max_self]

theorem tax_due_single (a r levy g : K) :
    tax_due g (singleBracketSpec a r levy) =
      if g ≤ 0 then 0
      else max 0 (g - a) * (r + if 0 < levy then levy else 0) := by
  by_cases hg : g ≤ 0
  · simp [tax_due, hg]
  · simp only [tax_due, if_neg hg, singleBracketSpec, apply_taper, bracket_walk,
      add_zero, sub_zero, zero_add, min_self, max_zero_idem]
    have hc : max 0 (g - a) - 1 / 1000000000 ≤ max 0 (g - a) := by
      have h9 : (0 : K) < 1 / 1000000000 := by norm_num
      linarith
    by_cases hl2 : (0 : K) < levy
    · rw [if_pos hl2, if_pos hc, if_pos hl2]
      ring
    · rw [if_neg hl2, if_pos hc, if_neg hl2]
      ring

theorem levy_if_nonneg (levy : K) (hl : 0 ≤ levy) :
    0 ≤ (if 0 < levy then levy else 0 : K) := by
  split
  · exact hl
  · exact le_rfl

theorem tax_due_single_nonneg (a r levy g : K) (hr : 0 ≤ r) (hl : 0 ≤ levy) :
    0 ≤ tax_due g (singleBracketSpec a r levy) := by
  rw [tax_due_single]
  split
  · exact le_rfl
  · exact mul_nonneg (le_max_left _ _) (add_nonneg hr (levy_if_nonneg levy hl))

theorem tax_due_single_mono (a r levy g1 g2 : K) (hr : 0 ≤ r) (hl : 0 ≤ levy)
    (h : g1 ≤ g2) :
    tax_due g1 (singleBracketSpec a r levy) ≤ tax_due g2 (singleBracketSpec a r levy) := by
  rw [tax_due_single, tax_due_single]
  have hrho : 0 ≤ r + (if 0 < levy then levy else 0 : K) :=
    add_nonneg hr (levy_if_nonneg levy hl)
  by_cases h1 : g1 ≤ 0
  · rw [if_pos h1]
    by_cases h2 : g2 ≤ 0
    · rw [if_pos h2]
    · rw [if_neg h2]
      exact mul_nonneg (le_max_left _ _) hrho
  · have h2 : ¬ g2 ≤ 0 := fun hc => h1 (le_trans h hc)
    rw [if_neg h1, if_neg h2]
    exact mul_le_mul_of_nonneg_right (max_le_max le_rfl (sub_le_sub_right h a)) hrho

theorem net_single_mono (a r levy g1 g2 : K) (ha : 0 ≤ a) (hr : 0 ≤ r) (hl : 0 ≤ levy)
    (hs : r + levy ≤ 1) (h : g1 ≤ g2) :
    net_from_gross g1 (singleBracketSpec a r levy) ≤
      net_from_gross g2 (singleBracketSpec a r levy) := by
  unfold net_from_gross
  rw [tax_due_single, tax_due_single]
  have hrho0 : 0 ≤ r + (if 0 < levy then levy else 0 : K) :=
    add_nonneg hr (levy_if_nonneg levy hl)
  have hrho1 : r + (if 0 < levy then levy else 0 : K) ≤ 1 := by
    split
    · exact hs
    · linarith
  by_cases h2 : g2 ≤ 0
  · rw [if_pos (le_trans h h2), if_pos h2]
    exact sub_le_sub_right h _
  · have hg2 : 0 < g2 := not_le.mp h2
    have hT2 : max 0 (g2 - a) ≤ g2 := by
      rw [max_le_iff]
      exact ⟨le_of_lt hg2, by linarith⟩
    have hT2n : 0 ≤ max 0 (g2 - a) := le_max_left _ _
    rw [if_neg h2]
    by_cases h1 : g1 ≤ 0
    · rw [if_pos h1]
      nlinarith [hT2, hT2n, hrho0, hrho1, hg2]
    · rw [if_neg h1]
      have hTd : max 0 (g2 - a) - max 0 (g1 - a) ≤ g2 - g1 := by
        rcases le_total (g1 - a) 0 with hc | hc
        · rw [max_eq_left hc]
          rcases le_total (g2 - a) 0 with hd | hd
          · rw [max_eq_left hd]
            linarith
          · rw [max_eq_right hd]
            linarith
        · rw [max_eq_right hc, max_eq_right (by linarith : (0:K) ≤ g2 - a)]
          linarith
      have hT1 : max 0 (g1 - a) ≤ max 0 (g2 - a) :=
        max_le_max le_rfl (sub_le_sub_right h a)
      nlinarith [hTd, hT1, hrho0, hrho1]

end TaxModels

namespace TaxModels

variable {K : Type} [LinearOrderedField K]

theorem bisect_net_invariant (spec : TaxSpec K) (t : K) :
    ∀ (n : ℕ) (lo hi : K), net_from_gross lo spec < t → t ≤ net_from_gross hi spec →
      lo ≤ hi →
      net_from_gross (bisect_net spec t n (lo, hi)).1 spec < t ∧
      t ≤ net_from_gross (bisect_net spec t n (lo, hi)).2 spec ∧
      (bisect_net spec t n (lo, hi)).1 ≤ (bisect_net spec t n (lo, hi)).2 ∧
      (bisect_net spec t n (lo, hi)).2 - (bisect_net spec t n (lo, hi)).1 =
        (hi - lo) / 2 ^ n := by
  intro n
  induction n with
  | zero =>
      intro lo hi hlo hhi hle
      exact ⟨hlo, hhi, hle, by simp [bisect_net]⟩
  | succ n ih =>
      intro lo hi hlo hhi hle
      have hmid_lo : lo ≤ (lo + hi) / 2 := by linarith
      have hmid_hi : (lo + hi) / 2 ≤ hi := by linarith
      have hpow : (2 : K) ^ (n + 1) = 2 ^ n * 2 := by ring
      by_cases hc : net_from_gross ((lo + hi) / 2) spec < t
      · have hres := ih ((lo + hi) / 2) hi hc hhi hmid_hi
        have hdef : bisect_net spec t (n + 1) (lo, hi) =
            bisect_net spec t n ((lo + hi) / 2, hi) := by
          simp only [bisect_net, if_pos hc]
        rw [hdef]
        refine ⟨hres.1, hres.2.1, hres.2.2.1, ?_⟩
        rw [hres.2.2.2, hpow]
        field_simp
        ring
      · have hge : t ≤ net_from_gross ((lo + hi) / 2) spec := not_lt.mp hc
        have hres := ih lo ((lo + hi) / 2) hlo hge hmid_lo
        have hdef : bisect_net spec t (n + 1) (lo, hi) =
            bisect_net spec t n (lo, (lo + hi) / 2) := by
          simp only [bisect_net, if_neg hc]
        rw [hdef]
        refine ⟨hres.1, hres.2.1, hres.2.2.1, ?_⟩
        rw [hres.2.2.2, hpow]
        field_simp
        ring

theorem bisect_net_stuck_high (spec : TaxSpec K) (t : K) :
    ∀ (n : ℕ) (lo hi : K), 0 ≤ lo → lo ≤ hi →
      (∀ g : K, 0 ≤ g → g ≤ hi → net_from_gross g spec < t) →
      (bisect_net spec t n (lo, hi)).2 = hi := by
  intro n
  induction n with
  | zero => intro lo hi _ _ _; simp [bisect_net]
  | succ n ih =>
      intro lo hi hlo hle hall
      have hmid0 : 0 ≤ (lo + hi) / 2 := by linarith
      have hmidhi : (lo + hi) / 2 ≤ hi := by linarith
      have hc : net_from_gross ((lo + hi) / 2) spec < t := hall _ hmid0 hmidhi
      have hdef : bisect_net spec t (n + 1) (lo, hi) =
          bisect_net spec t n ((lo + hi) / 2, hi) := by
        simp only [bisect_net, if_pos hc]
      rw [hdef]
      exact ih _ _ hmid0 hmidhi hall

end TaxModels

namespace Simulation

variable {K : Type} [LinearOrderedField K]

theorem pathStep_port_nonneg (cfg : SimCfg K) (eqR bdR : ℕ → K) (s : PathState K)
    (m : ℕ) (hf : 0 ≤ cfg.fees_m) : 0 ≤ (pathStep cfg eqR bdR s m).port := by
  unfold pathStep
  have hpre : 0 ≤ max 0 ((if !s.retired &&
        decide ((cfg.start_age : K) + ((m : K) - 1) / 12 < (cfg.retire_age : K))
      then s.port + (if !s.retired &&
        decide ((cfg.start_age : K) + ((m : K) - 1) / 12 < (cfg.retire_age : K))
        then s.contrib * cfg.contribution_growth_m else s.contrib) / cfg.cpi_m ^ m
      else s.port) *
        (1 + (cfg.equity_alloc * eqR (m - 1) + cfg.bond_alloc * bdR (m - 1)))) *
      cfg.fees_m := mul_nonneg (le_max_left _ _) hf
  dsimp only
  split
  · exact le_max_left _ _
  · exact hpre

theorem pathStep_portPre_nonneg (cfg : SimCfg K) (eqR bdR : ℕ → K) (s : PathState K)
    (m : ℕ) (hf : 0 ≤ cfg.fees_m) : 0 ≤ (pathStep cfg eqR bdR s m).portPre := by
  unfold pathStep
  have hpre : 0 ≤ max 0 ((if !s.retired &&
        decide ((cfg.start_age : K) + ((m : K) - 1) / 12 < (cfg.retire_age : K))
      then s.port + (if !s.retired &&
        decide ((cfg.start_age : K) + ((m : K) - 1) / 12 < (cfg.retire_age : K))
        then s.contrib * cfg.contribution_growth_m else s.contrib) / cfg.cpi_m ^ m
      else s.port) *
        (1 + (cfg.equity_alloc * eqR (m - 1) + cfg.bond_alloc * bdR (m - 1)))) *
      cfg.fees_m := mul_nonneg (le_max_left _ _) hf
  dsimp only
  split
  · exact hpre
  · exact hpre

theorem pathStep_net_le_cap (cfg : SimCfg K) (eqR bdR : ℕ → K) (s : PathState K)
    (m : ℕ) (hp : cfg.preserve_capital = true) :
    (pathStep cfg eqR bdR s m).net ≤
      max 0 ((pathStep cfg eqR bdR s m).portPre - cfg.current_investable) := by
  unfold pathStep
  dsimp only
  simp only [hp, eq_self_iff_true, if_true]
  split
  · dsimp only
    have h12 : (12 : K) ≠ 0 := by norm_num
    refine le_trans (min_le_left _ _) ?_
    rw [mul_div_cancel_right₀ _ h12]
    exact min_le_right _ _
  · dsimp only
    exact le_max_left _ _

end Simulation

/-
  Claim theorems.
-/

/-- C1: for every simulation configuration (with a non-negative starting
portfolio and a non-negative monthly fee multiplier, which holds whenever
`(1 - fees_annual) ** (1/12)` is defined) and every simulated path, the real
portfolio wealth computed by `run_paths` is non-negative at every month index:
wealth is floored at 0 after the return/fee step of every month and again
after every withdrawal, and the withdrawal subtracted never drives it below
0. -/
theorem C1_wealth_trajectory_nonneg {K : Type} [LinearOrderedField K]
    (cfg : Simulation.SimCfg K) (eqR bdR : ℕ → K)
    (h0 : 0 ≤ cfg.current_investable) (hf : 0 ≤ cfg.fees_m) :
    ∀ m : ℕ, 0 ≤ (Simulation.pathState cfg eqR bdR m).port := by
  intro m
  cases m with
  | zero => simpa [Simulation.pathState, Simulation.pathInit] using h0
  | succ n => exact Simulation.pathStep_port_nonneg cfg eqR bdR _ _ hf

/-- Witness for C1: the hypotheses hold and the wealth at month 12 of a
concrete one-year run is non-negative. -/
theorem C1_wealth_trajectory_nonneg_witness :
    0 ≤ cfgYr.current_investable ∧ 0 ≤ cfgYr.fees_m ∧
    0 ≤ (Simulation.pathState cfgYr retZero retZero 12).port :=
  ⟨by norm_num [cfgYr], by norm_num [cfgYr],
    C1_wealth_trajectory_nonneg cfgYr retZero retZero (by norm_num [cfgYr])
      (by norm_num [cfgYr]) 12⟩

/-- C2 counterexample: in preserve-capital mode with a 10m portfolio that has
grown 2000 above the initial principal, the gross amount actually subtracted
from the portfolio in month 1 (the net budget of 2000 grossed up for UK tax,
about 2238.13) exceeds `max 0 (wealth(1) - initial_wealth) = 2000`. -/
theorem C2_counterexample :
    cfgPC.preserve_capital = true ∧
    ¬ ((Simulation.pathState cfgPC retPC retPC 1).gross ≤
        max 0 ((Simulation.pathState cfgPC retPC retPC 1).portPre -
          cfgPC.current_investable)) := by
  with_unfolding_all decide

/-- C2 amended: whenever preserve-capital mode is active, the *net* withdrawal
delivered in any month is at most `max 0 (wealth(m) - initial_wealth)` (wealth
taken after the month's return and fee step); the gross amount subtracted from
the portfolio can exceed this cap by the tax gross-up. -/
theorem C2_net_withdrawal_capped {K : Type} [LinearOrderedField K]
    (cfg : Simulation.SimCfg K) (eqR bdR : ℕ → K)
    (hp : cfg.preserve_capital = true) :
    ∀ m : ℕ, (Simulation.pathState cfg eqR bdR m).net ≤
      max 0 ((Simulation.pathState cfg eqR bdR m).portPre - cfg.current_investable) := by
  intro m
  cases m with
  | zero => simp [Simulation.pathState, Simulation.pathInit]
  | succ n => exact Simulation.pathStep_net_le_cap cfg eqR bdR _ _ hp

/-- Witness for C2 amended at the concrete preserve-capital configuration. -/
theorem C2_net_withdrawal_capped_witness :
    cfgPC.preserve_capital = true ∧
    (Simulation.pathState cfgPC retPC retPC 1).net ≤
      max 0 ((Simulation.pathState cfgPC retPC retPC 1).portPre -
        cfgPC.current_investable) :=
  ⟨rfl, C2_net_withdrawal_capped cfgPC retPC retPC rfl 1⟩

/-- C3 counterexample: `taperTrapSpec` has strictly increasing bracket bounds
and rates in [0,1], yet `net_from_gross` is decreasing between gross 20000 and
gross 30000 (the allowance taper makes the marginal tax rate 1.5 * 0.8 =
1.2 > 1). -/
theorem C3_counterexample :
    TaxModels.ValidBrackets taperTrapSpec ∧
    (20000 : ℚ) ≤ 30000 ∧
    TaxModels.net_from_gross (30000 : ℚ) taperTrapSpec <
      TaxModels.net_from_gross (20000 : ℚ) taperTrapSpec := by
  with_unfolding_all decide

/-- C3 amended: for every spec with non-negative bracket rates,
`net_from_gross(gross) ≤ gross`; monotonicity of `net_from_gross` holds on the
family of specs with a single unbounded bracket, no taper, non-negative
allowance and `rate + levy ≤ 1` (it fails in general, see the
counterexample). -/
theorem C3_net_le_gross_and_mono {K : Type} [LinearOrderedField K] :
    (∀ (spec : TaxModels.TaxSpec K) (gross : K),
        (∀ b ∈ spec.brackets, 0 ≤ b.rate) →
        TaxModels.net_from_gross gross spec ≤ gross) ∧
    (∀ (a r levy g1 g2 : K), 0 ≤ a → 0 ≤ r → 0 ≤ levy → r + levy ≤ 1 → g1 ≤ g2 →
        TaxModels.net_from_gross g1 (TaxModels.singleBracketSpec a r levy) ≤
          TaxModels.net_from_gross g2 (TaxModels.singleBracketSpec a r levy)) :=
  ⟨fun spec gross hr => TaxModels.net_from_gross_le gross spec hr,
   fun a r levy g1 g2 ha hr hl hs h =>
     TaxModels.net_single_mono a r levy g1 g2 ha hr hl hs h⟩

/-- Witness for C3 amended at concrete specs and gross amounts. -/
theorem C3_net_le_gross_and_mono_witness :
    TaxModels.net_from_gross (50000 : ℚ) simpleUKSpec ≤ 50000 ∧
    TaxModels.net_from_gross (20000 : ℚ) (TaxModels.singleBracketSpec 10000 (1/5) 0) ≤
      TaxModels.net_from_gross (30000 : ℚ) (TaxModels.singleBracketSpec 10000 (1/5) 0) :=
  ⟨C3_net_le_gross_and_mono.1 simpleUKSpec 50000
      (by intro b hb; simp [simpleUKSpec] at hb; rw [hb]; norm_num),
   C3_net_le_gross_and_mono.2 10000 (1/5) 0 20000 30000 (by norm_num) (by norm_num)
      le_rfl (by norm_num) (by norm_num)⟩

/-- C4 counterexample: for the valid spec `simpleUKSpec` and the net target
1e-20 (strictly between 0 and `net_from_gross(2e9)`), the bisection returns
the grid point `2e9 / 2^70 ≈ 1.7e-12`, so the round-trip error exceeds the
target by more than a factor of a million; the 1e-6-relative tolerance is
violated. -/
theorem C4_counterexample :
    (0 : ℚ) < 1 / 10 ^ 20 ∧
    (1 / 10 ^ 20 : ℚ) < TaxModels.net_from_gross 2000000000 simpleUKSpec ∧
    1000000 * (1 / 10 ^ 20 : ℚ) <
      TaxModels.net_from_gross
        (TaxModels.gross_needed_for_net (1 / 10 ^ 20) simpleUKSpec) simpleUKSpec -
        1 / 10 ^ 20 := by
  with_unfolding_all decide

/-- C4 amended: on single-unbounded-bracket specs (no taper, non-negative rate
and levy) and net targets of at least 0.01 that `UPPER_BOUND = 2e9` can net,
the bisection inverse round-trips: the returned gross over-delivers,
`net_from_gross(gross_for_net(t)) ≥ t`, by at most `2e9 / 2^70 ≤ 1e-8`, which
is within 1e-6 relative tolerance of the target. -/
theorem C4_roundtrip_single_bracket {K : Type} [LinearOrderedField K]
    (a r levy t : K) (hr : 0 ≤ r) (hl : 0 ≤ levy) (ht : 1 / 100 ≤ t)
    (hub : t ≤ TaxModels.net_from_gross 2000000000 (TaxModels.singleBracketSpec a r levy)) :
    0 ≤ TaxModels.net_from_gross
        (TaxModels.gross_needed_for_net t (TaxModels.singleBracketSpec a r levy))
        (TaxModels.singleBracketSpec a r levy) - t ∧
    TaxModels.net_from_gross
        (TaxModels.gross_needed_for_net t (TaxModels.singleBracketSpec a r levy))
        (TaxModels.singleBracketSpec a r levy) - t ≤ t / 1000000 := by
  have ht0 : (0 : K) < t := lt_of_lt_of_le (by norm_num) ht
  have htax0 : TaxModels.tax_due (0 : K) (TaxModels.singleBracketSpec a r levy) = 0 := by
    rw [TaxModels.tax_due_single, if_pos le_rfl]
  have hnet0 : TaxModels.net_from_gross (0 : K) (TaxModels.singleBracketSpec a r levy) < t := by
    unfold TaxModels.net_from_gross
    rw [htax0]
    simpa using ht0
  have hinv := TaxModels.bisect_net_invariant (TaxModels.singleBracketSpec a r levy) t 70
    0 2000000000 hnet0 hub (by norm_num)
  obtain ⟨hlo_lt, hhi_ge, hle, hwidth⟩ := hinv
  have hresult : TaxModels.gross_needed_for_net t (TaxModels.singleBracketSpec a r levy) =
      (TaxModels.bisect_net (TaxModels.singleBracketSpec a r levy) t 70 (0, 2000000000)).2 := by
    unfold TaxModels.gross_needed_for_net
    rw [if_neg (not_le.mpr ht0)]
  have htax_mono : TaxModels.tax_due
      (TaxModels.bisect_net (TaxModels.singleBracketSpec a r levy) t 70 (0, 2000000000)).1
      (TaxModels.singleBracketSpec a r levy) ≤ TaxModels.tax_due
      (TaxModels.bisect_net (TaxModels.singleBracketSpec a r levy) t 70 (0, 2000000000)).2
      (TaxModels.singleBracketSpec a r levy) :=
    TaxModels.tax_due_single_mono a r levy _ _ hr hl hle
  have hnetdiff : TaxModels.net_from_gross
      (TaxModels.bisect_net (TaxModels.singleBracketSpec a r levy) t 70 (0, 2000000000)).2
      (TaxModels.singleBracketSpec a r levy) - TaxModels.net_from_gross
      (TaxModels.bisect_net (TaxModels.singleBracketSpec a r levy) t 70 (0, 2000000000)).1
      (TaxModels.singleBracketSpec a r levy) ≤
      (TaxModels.bisect_net (TaxModels.singleBracketSpec a r levy) t 70 (0, 2000000000)).2 -
      (TaxModels.bisect_net (TaxModels.singleBracketSpec a r levy) t 70 (0, 2000000000)).1 := by
    unfold TaxModels.net_from_gross
    linarith
  have hwidth2 : (TaxModels.bisect_net (TaxModels.singleBracketSpec a r levy) t 70
      (0, 2000000000)).2 -
      (TaxModels.bisect_net (TaxModels.singleBracketSpec a r levy) t 70 (0, 2000000000)).1 ≤
      1 / 100000000 := by
    rw [hwidth]
    rw [div_le_div_iff₀ (by positivity) (by norm_num)]
    norm_num
  have htdiv : (1 : K) / 100000000 ≤ t / 1000000 := by
    rw [div_le_div_iff₀ (by norm_num) (by norm_num)]
    linarith
  rw [hresult]
  constructor
  · linarith
  · linarith

/-- Witness for C4 amended at a concrete single-bracket spec and target. -/
theorem C4_roundtrip_single_bracket_witness :
    0 ≤ TaxModels.net_from_gross
        (TaxModels.gross_needed_for_net (100 : ℚ) (TaxModels.singleBracketSpec 12570 (1/5) 0))
        (TaxModels.singleBracketSpec 12570 (1/5) 0) - 100 ∧
    TaxModels.net_from_gross
        (TaxModels.gross_needed_for_net (100 : ℚ) (TaxModels.singleBracketSpec 12570 (1/5) 0))
        (TaxModels.singleBracketSpec 12570 (1/5) 0) - 100 ≤ 100 / 1000000 :=
  C4_roundtrip_single_bracket 12570 (1/5) 0 100 (by norm_num) (by norm_num) (by norm_num)
    (by with_unfolding_all decide)

/-- C5 counterexample: on a concrete one-year path the final computed wealth
is non-negative and a nonzero withdrawal occurred in month 12 (recorded as
`first_withdrawal_month = 12`), yet the path is classified as unsuccessful:
`run_paths` never stores the wealth trajectory into its results table past
month 0, so the recorded final wealth compared by the classifier is 0 and the
strict test `> 0` fails. -/
theorem C5_counterexample :
    0 ≤ (Simulation.pathState cfgYr retZero retZero (Simulation.months cfgYr)).port ∧
    (1 / 1000000000 : ℚ) < (Simulation.pathState cfgYr retZero retZero 12).gross ∧
    (Simulation.pathState cfgYr retZero retZero (Simulation.months cfgYr)).firstWd =
      some 12 ∧
    ¬ Simulation.RunSuccess cfgYr retZero retZero := by
  with_unfolding_all decide

/-- C5 amended: the classifier marks a path successful iff a withdrawal with
gross above 1e-9 occurred and the final *recorded* portfolio value is strictly
positive; since the results table records the portfolio only at month 0, every
path whose horizon is at least one month is classified unsuccessful. -/
theorem C5_success_impossible {K : Type} [LinearOrderedField K]
    (cfg : Simulation.SimCfg K) (eqR bdR : ℕ → K)
    (hm : 1 ≤ Simulation.months cfg) :
    ¬ Simulation.RunSuccess cfg eqR bdR := by
  intro h
  have h2 := h.2
  have hz : Simulation.recordedPort cfg (Simulation.months cfg) = 0 := by
    unfold Simulation.recordedPort
    rw [if_neg (by omega)]
  rw [hz] at h2
  exact lt_irrefl 0 h2

/-- Witness for C5 amended at a concrete 12-month configuration. -/
theorem C5_success_impossible_witness : ¬ Simulation.RunSuccess cfgPC retPC retPC :=
  C5_success_impossible cfgPC retPC retPC (by with_unfolding_all decide)

/-- C6: the Monte Carlo engine is deterministic given the seed: two runs with
the same master-generator draws and field-by-field equal configurations (in
particular the same seed) produce the same summary — the same success rate
and the same percentile wealth and withdrawal trajectories. -/
theorem C6_determinism {K : Type} [LinearOrderedField K] [FloorRing K]
    (jitter : ℕ → ℕ → ℕ) (drawRet : ℕ → ℕ → K × K) (cfg1 cfg2 : Simulation.SimCfg K)
    (e1 : cfg1.start_age = cfg2.start_age)
    (e2 : cfg1.retire_age = cfg2.retire_age)
    (e3 : cfg1.end_age = cfg2.end_age)
    (e4 : cfg1.monthly_contribution = cfg2.monthly_contribution)
    (e5 : cfg1.contribution_growth_pct = cfg2.contribution_growth_pct)
    (e6 : cfg1.contribution_growth_m = cfg2.contribution_growth_m)
    (e7 : cfg1.current_investable = cfg2.current_investable)
    (e8 : cfg1.equity_alloc = cfg2.equity_alloc)
    (e9 : cfg1.bond_alloc = cfg2.bond_alloc)
    (e10 : cfg1.equity_real_return = cfg2.equity_real_return)
    (e11 : cfg1.equity_vol = cfg2.equity_vol)
    (e12 : cfg1.bond_real_return = cfg2.bond_real_return)
    (e13 : cfg1.bond_vol = cfg2.bond_vol)
    (e14 : cfg1.corr_equity_bond = cfg2.corr_equity_bond)
    (e15 : cfg1.fees_annual = cfg2.fees_annual)
    (e16 : cfg1.fees_m = cfg2.fees_m)
    (e17 : cfg1.cpi = cfg2.cpi)
    (e18 : cfg1.cpi_m = cfg2.cpi_m)
    (e19 : cfg1.category_basket_annual_today = cfg2.category_basket_annual_today)
    (e20 : cfg1.preserve_capital = cfg2.preserve_capital)
    (e21 : cfg1.rule_is_3pct = cfg2.rule_is_3pct)
    (e22 : cfg1.guardrails_cfg = cfg2.guardrails_cfg)
    (e23 : cfg1.num_paths = cfg2.num_paths)
    (e24 : cfg1.seed = cfg2.seed)
    (e25 : cfg1.uk_tax = cfg2.uk_tax) :
    (Simulation.runMonteCarlo jitter drawRet cfg1).1 =
      (Simulation.runMonteCarlo jitter drawRet cfg2).1 := by
  have hcfg : cfg1 = cfg2 := by
    apply Simulation.SimCfg.ext <;> assumption
  rw [hcfg]

/-- Witness for C6: two field-by-field identical three-path configurations
yield the same summary. -/
theorem C6_determinism_witness :
    (Simulation.runMonteCarlo jitterW drawW cfgMC).1 =
      (Simulation.runMonteCarlo jitterW drawW cfgMC2).1 :=
  C6_determinism jitterW drawW cfgMC cfgMC2 rfl rfl rfl rfl rfl rfl rfl rfl rfl rfl rfl
    rfl rfl rfl rfl rfl rfl rfl rfl rfl rfl rfl rfl rfl rfl

/-- C7 (code bug): `run_monte_carlo` aliases the input configuration
(`path_cfg = cfg`) and mutates its `seed` per path, so after a run with at
least one path the configuration's seed field holds the last per-path
sub-seed drawn from the master generator, not the value supplied by the
caller. -/
theorem C7_seed_overwritten {K : Type} [LinearOrderedField K] [FloorRing K]
    (jitter : ℕ → ℕ → ℕ) (drawRet : ℕ → ℕ → K × K) (cfg : Simulation.SimCfg K)
    (h : 1 ≤ cfg.num_paths) :
    ((Simulation.runMonteCarlo jitter drawRet cfg).2).seed =
      jitter cfg.seed (cfg.num_paths - 1) := by
  unfold Simulation.runMonteCarlo
  dsimp only
  rw [if_neg (by omega)]

/-- Witness for C7: on a three-path run with seed 42 and sub-seed draws
`s + i + 1`, the configuration comes back with seed 45 ≠ 42. -/
theorem C7_seed_overwritten_witness :
    ((Simulation.runMonteCarlo jitterW drawW cfgMC).2).seed ≠ cfgMC.seed := by
  rw [C7_seed_overwritten jitterW drawW cfgMC (by with_unfolding_all decide)]
  with_unfolding_all decide

/-- C8: the cost projector emits, for every basket entry and every year offset
`y ≤ years`, the row with nominal monthly cost
`basket[cat] * (1 + cpi + drift[cat])^y` (drift defaulting to 0 when absent
via `getD`), real monthly cost `nominal / (1 + cpi)^y`, and annual figures
12 times the monthly ones; at year 0 both the nominal and the real value
equal the input basket value. -/
theorem C8_cost_projection {α K : Type} [LinearOrderedField K]
    (spend_today : List (α × K)) (cpi : K) (drifts : α → Option K) (years : ℕ)
    (cat : α) (monthly_now : K) (y : ℕ)
    (hmem : (cat, monthly_now) ∈ spend_today) (hy : y ≤ years) :
    ({ year := y
       category := cat
       monthly_nominal := monthly_now * (1 + (cpi + (drifts cat).getD 0)) ^ y
       monthly_real := monthly_now * (1 + (cpi + (drifts cat).getD 0)) ^ y / (1 + cpi) ^ y
       annual_nominal := monthly_now * (1 + (cpi + (drifts cat).getD 0)) ^ y * 12
       annual_real :=
         monthly_now * (1 + (cpi + (drifts cat).getD 0)) ^ y / (1 + cpi) ^ y * 12 } :
      Costs.CostRow α K) ∈ Costs.project_category_costs spend_today cpi drifts years ∧
    (y = 0 → monthly_now * (1 + (cpi + (drifts cat).getD 0)) ^ y = monthly_now ∧
      monthly_now * (1 + (cpi + (drifts cat).getD 0)) ^ y / (1 + cpi) ^ y = monthly_now) := by
  constructor
  · unfold Costs.project_category_costs
    rw [List.mem_flatten]
    refine ⟨_, List.mem_map_of_mem _ hmem, ?_⟩
    dsimp only
    exact List.mem_map.2 ⟨y, List.mem_range.2 (by omega), rfl⟩
  · intro h0
    subst h0
    constructor
    · simp
    · simp

/-- Witness for C8 at a concrete one-category basket. -/
theorem C8_cost_projection_witness :
    ({ year := 1
       category := 0
       monthly_nominal := (100 : ℚ) * (1 + (1/40 + 1/100)) ^ 1
       monthly_real := (100 : ℚ) * (1 + (1/40 + 1/100)) ^ 1 / (1 + 1/40) ^ 1
       annual_nominal := (100 : ℚ) * (1 + (1/40 + 1/100)) ^ 1 * 12
       annual_real := (100 : ℚ) * (1 + (1/40 + 1/100)) ^ 1 / (1 + 1/40) ^ 1 * 12 } :
      Costs.CostRow ℕ ℚ) ∈
      Costs.project_category_costs [((0 : ℕ), (100 : ℚ))] (1/40)
        (fun _ => some (1/100)) 2 ∧
    ((1 : ℕ) = 0 → (100 : ℚ) * (1 + (1/40 + 1/100)) ^ 1 = 100 ∧
      (100 : ℚ) * (1 + (1/40 + 1/100)) ^ 1 / (1 + 1/40) ^ 1 = 100) :=
  C8_cost_projection [((0 : ℕ), (100 : ℚ))] (1/40) (fun _ => some (1/100)) 2 0 100 1
    (by simp) (by omega)

/-- C9 counterexample: `saturTrapSpec` is a valid spec on which
`net_from_gross` decreases above the taper start, so the net target 9e8
exceeds `net_from_gross(2e9) = 8e8` yet is attainable at an interior gross;
the bisection then converges near 9e8 instead of returning the bound 2e9. -/
theorem C9_counterexample :
    TaxModels.ValidBrackets saturTrapSpec ∧
    TaxModels.net_from_gross (2000000000 : ℚ) saturTrapSpec < 900000000 ∧
    TaxModels.gross_needed_for_net (900000000 : ℚ) saturTrapSpec < 1000000000 := by
  with_unfolding_all decide

/-- C9 amended: `gross_needed_for_net` (and `taxes.gross_for_net`) returns 0
for every net target ≤ 0; and the bisection saturates at the bound
`UPPER_BOUND = 2e9` whenever the target exceeds `net_from_gross(g)` for every
`g` in `[0, UPPER_BOUND]` — which follows from `net_target >
net_from_gross(UPPER_BOUND)` when `net_from_gross` is non-decreasing, but not
in general (see the counterexample). -/
theorem C9_gross_for_net_saturation {K : Type} [LinearOrderedField K] :
    (∀ (spec : TaxModels.TaxSpec K) (t : K), t ≤ 0 →
        TaxModels.gross_needed_for_net t spec = 0) ∧
    (∀ (sys : Taxes.TaxSystem K) (t : K), t ≤ 0 → Taxes.gross_for_net t sys = 0) ∧
    (∀ (spec : TaxModels.TaxSpec K) (t : K), 0 < t →
        (∀ g : K, 0 ≤ g → g ≤ 2000000000 → TaxModels.net_from_gross g spec < t) →
        TaxModels.gross_needed_for_net t spec = 2000000000) := by
  refine ⟨?_, ?_, ?_⟩
  · intro spec t ht
    unfold TaxModels.gross_needed_for_net
    rw [if_pos ht]
  · intro sys t ht
    unfold Taxes.gross_for_net
    rw [if_pos ht]
  · intro spec t ht hall
    unfold TaxModels.gross_needed_for_net
    rw [if_neg (not_le.mpr ht)]
    exact TaxModels.bisect_net_stuck_high spec t 70 0 2000000000 le_rfl (by norm_num) hall

/-- Witness for C9 amended: zero targets return 0, and a target beyond what
any gross in the search interval can net pins the result at the bound. -/
theorem C9_gross_for_net_saturation_witness :
    TaxModels.gross_needed_for_net (-5 : ℚ) simpleUKSpec = 0 ∧
    Taxes.gross_for_net (-5 : ℚ) negBandSys = 0 ∧
    TaxModels.gross_needed_for_net (3000000000 : ℚ) (TaxModels.singleBracketSpec 0 0 0) =
      2000000000 :=
  ⟨C9_gross_for_net_saturation.1 simpleUKSpec (-5) (by norm_num),
   C9_gross_for_net_saturation.2.1 negBandSys (-5) (by norm_num),
   C9_gross_for_net_saturation.2.2 (TaxModels.singleBracketSpec 0 0 0) 3000000000
     (by norm_num)
     (fun g hg hgle =>
       lt_of_le_of_lt
         (le_trans
           (TaxModels.net_from_gross_le g (TaxModels.singleBracketSpec 0 0 0)
             (by intro b hb; simp [TaxModels.singleBracketSpec] at hb; rw [hb]))
           hgle)
         (by norm_num))⟩

/-- C10 counterexample: `taxes.tax_due` returns a negative amount (-2.25) at
gross 95 for a sorted system with non-negative rates: the loop's comparison
`taxable > band.up_to - last` walks past both zero-rate bands leaving
`last = 100 > taxable`, and the top-rate remainder `(95 - 100) * 0.45` is
negative. -/
theorem C10_counterexample :
    (∀ b ∈ negBandSys.bands, 0 ≤ b.rate) ∧ 0 ≤ negBandSys.top_rate ∧
    Taxes.bandsSorted negBandSys.bands = true ∧
    Taxes.tax_due (95 : ℚ) negBandSys < 0 := by
  with_unfolding_all decide

/-- C10 amended: both tax functions return exactly 0 for gross ≤ 0, and
`tax_models.tax_due` is non-negative whenever all bracket rates are
non-negative (the levy only contributes when positive); the non-negativity
conjunct fails for `taxes.tax_due` (see the counterexample). -/
theorem C10_tax_due_zero_and_nonneg {K : Type} [LinearOrderedField K] :
    (∀ (spec : TaxModels.TaxSpec K) (g : K), g ≤ 0 → TaxModels.tax_due g spec = 0) ∧
    (∀ (spec : TaxModels.TaxSpec K) (g : K), (∀ b ∈ spec.brackets, 0 ≤ b.rate) →
        0 ≤ TaxModels.tax_due g spec) ∧
    (∀ (sys : Taxes.TaxSystem K) (g : K), g ≤ 0 → Taxes.tax_due g sys = 0) := by
  refine ⟨?_, ?_, ?_⟩
  · intro spec g hg
    unfold TaxModels.tax_due
    rw [if_pos hg]
  · intro spec g hr
    exact TaxModels.tax_due_nonneg g spec hr
  · intro sys g hg
    unfold Taxes.tax_due
    rw [if_pos hg]

/-- Witness for C10 amended at concrete specs and gross amounts. -/
theorem C10_tax_due_zero_and_nonneg_witness :
    TaxModels.tax_due (-3 : ℚ) simpleUKSpec = 0 ∧
    0 ≤ TaxModels.tax_due (50000 : ℚ) simpleUKSpec ∧
    Taxes.tax_due (-3 : ℚ) negBandSys = 0 :=
  ⟨C10_tax_due_zero_and_nonneg.1 simpleUKSpec (-3) (by norm_num),
   C10_tax_due_zero_and_nonneg.2.1 simpleUKSpec 50000
     (by intro b hb; simp [simpleUKSpec] at hb; rw [hb]; norm_num),
   C10_tax_due_zero_and_nonneg.2.2 negBandSys (-3) (by norm_num)⟩
